import Mathlib

/-!
Shallow embedding of the MicroSOA-09/gateway-service API gateway.

The embedding follows `main.go` and `handler/Gateway.go`:
the authentication middleware (`AuthMiddleware`), the token validation
call (`validateJWT`), the mux route table built in `main`, and the
startup / configuration validation (`NewGateway`, environment checks).

External collaborators (the HTTP client, JSON decoding, `net/url.Parse`,
the environment) are modelled as explicit inputs: the auth backend's
answer is a value of `AuthBackendResult`, URL parsing is a parameter
`parse`, and the environment is a function from variable name to value
(Go's `os.Getenv` returns `""` for an unset variable).
-/

namespace GatewaySvc

/-- Model of Go `strings.HasPrefix s pre`: the rune sequence of `pre`
is a prefix of the rune sequence of `s`. -/
def goHasPre (s pre : String) : Bool :=
  decide (pre.data <+: s.data)

/-- Model of Go `strings.Split s sep` for a single-rune separator
(the middleware splits the Authorization header on a single space):
every occurrence of the separator splits, empty fields are kept,
and the empty string yields `[[]]`, exactly as in Go. -/
def goSplit (sep : Char) : List Char → List (List Char)
  | [] => [[]]
  | c :: cs =>
    if c = sep then [] :: goSplit sep cs
    else
      match goSplit sep cs with
      | [] => [[c]]
      | t :: ts => (c :: t) :: ts

/-- Go `strings.Split authHeader " "` as a function on `String`. -/
def goSplitSpace (s : String) : List String :=
  (goSplit ' ' s.data).map String.mk

/-- Go `http.Header` modelled as an association list of
(canonical field name, value) pairs; `Header.Get` returns the first
value for the key, or `""` when absent. -/
abbrev Headers := List (String × String)

/-- Model of `http.Header.Get`. -/
def headerGet (key : String) (hs : Headers) : String :=
  match hs.find? (fun p => p.1 == key) with
  | some p => p.2
  | none => ""

/-- Model of `http.Header.Set`: replaces every value stored for the key. -/
def headerSet (key value : String) (hs : Headers) : Headers :=
  (key, value) :: hs.filter (fun p => p.1 != key)

/-- The parts of an inbound `http.Request` the middleware looks at:
`r.URL.Path` and `r.Header`. -/
structure Request where
  path : String
  headers : Headers
deriving DecidableEq

/-- The JSON payload of the auth backend's validation endpoint
(`AuthValidateResponse` in `handler/Gateway.go`); absent JSON fields
decode to `""` in Go. -/
structure AuthValidateResponse where
  userID : String
  role : String
  username : String
  error : String
deriving DecidableEq

/-- The observable result of the outbound call performed by
`validateJWT`: either the HTTP client fails (`client.Do` returns an
error), or a response arrives with a status code and a body whose JSON
decode either succeeds (`some payload`) or fails (`none`). -/
inductive AuthBackendResult where
  | netErr (msg : String)
  | response (status : Nat) (body : Option AuthValidateResponse)
deriving DecidableEq

/-- Model of `Gateway.validateJWT` in `handler/Gateway.go`, as a function
of the auth backend's answer for the token. Returns
`(userID, role, username)` on success, or the error message built by the
corresponding `fmt.Errorf` branch. -/
def validateJWT (resp : AuthBackendResult) : Except String (String × String × String) :=
  match resp with
  | .netErr msg => .error ("failed to contact AuthService: " ++ msg)
  | .response status body =>
    if status ≠ 200 then
      match body with
      | some authResp =>
        if authResp.error ≠ "" then
          .error ("AuthService error: " ++ authResp.error)
        else
          .error ("AuthService returned status: " ++ toString status)
      | none => .error ("AuthService returned status: " ++ toString status)
    else
      match body with
      | none => .error "failed to decode AuthService response"
      | some authResp =>
        if authResp.userID = "" ∨ authResp.role = "" then
          .error "invalid AuthService response: missing userID or role"
        else
          .ok (authResp.userID, authResp.role, authResp.username)

/-- What the middleware does with the request: hand it (possibly with
rewritten headers) to the next handler, or answer with `http.Error`
(status code and body). -/
inductive MwOutcome where
  | forwarded (r : Request)
  | rejected (status : Nat) (body : String)
deriving DecidableEq

/-- Instrumented result of one `AuthMiddleware` invocation:
the outcome, the token passed to `validateJWT` when that call happened
(`none` when the verifier was never invoked), and the lines written to
the gateway's logger. -/
structure MwResult where
  outcome : MwOutcome
  verifierCalled : Option String
  logs : List String
deriving DecidableEq

/-- Model of `Gateway.AuthMiddleware` in `handler/Gateway.go`.
The outbound verification call is abstracted as `verify`; in the code it
is `g.validateJWT`, see `gateHandle` below. -/
def AuthMiddleware (verify : String → Except String (String × String × String))
    (r : Request) : MwResult :=
  if goHasPre r.path "/api/auth/" then
    { outcome := .forwarded r, verifierCalled := none, logs := [] }
  else
    let authHeader := headerGet "Authorization" r.headers
    if authHeader = "" then
      { outcome := .rejected 401 "missing Authorization header",
        verifierCalled := none, logs := [] }
    else
      let parts := goSplitSpace authHeader
      if parts.length ≠ 2 ∨ parts.getD 0 "" ≠ "Bearer" then
        { outcome := .rejected 401 "invalid Authorization format",
          verifierCalled := none, logs := [] }
      else
        match verify (parts.getD 1 "") with
        | .error e =>
          { outcome := .rejected 401 "invalid JWT",
            verifierCalled := some (parts.getD 1 ""),
            logs := ["JWT validation failed: " ++ e] }
        | .ok (userID, role, username) =>
          { outcome := .forwarded
              { path := r.path,
                headers :=
                  headerSet "X-Username" username
                    (headerSet "X-User-Role" role
                      (headerSet "X-User-ID" userID r.headers)) },
            verifierCalled := some (parts.getD 1 ""),
            logs := [] }

/-- The middleware as wired in the repository: `verify` is
`validateJWT` applied to the auth backend's answer for the token. -/
def gateHandle (backend : String → AuthBackendResult) (r : Request) : MwResult :=
  AuthMiddleware (fun token => validateJWT (backend token)) r

/-- The four backends a request can be forwarded to. -/
inductive Target where
  | auth
  | blog
  | user
  | asp
deriving DecidableEq

/-- The route table registered in `main`. Each mux registration
combines `PathPrefix("/api/X").Subrouter()` with a handler at
`"/"` followed by a wildcard segment, so it matches exactly the paths
that have `"/api/X/"` as a prefix; mux evaluates registrations in
order, and a registration whose pattern fails to match falls through to
the next one, so the table is an ordered first-match-wins list mirroring
the registration order in `main.go`. -/
def routes : List (String × Target) :=
  [("/api/auth/", Target.auth),
   ("/api/blog/", Target.blog),
   ("/api/user/", Target.user),
   ("/api/", Target.asp)]

/-- Route selection: the target of the first rule whose pattern matches
the request path, `none` when no rule matches. -/
def matchRoute (path : String) : Option Target :=
  match routes.find? (fun rule => goHasPre path rule.1) with
  | some rule => some rule.2
  | none => none

/-- The configuration read from the environment in `main`. -/
structure Config where
  AuthServiceURL : String
  BlogServiceURL : String
  UserServiceURL : String
  AspServiceURL : String
deriving DecidableEq

/-- Model of a parsed `net/url.URL`; parsing itself (`url.Parse`) is an
external collaborator and is passed in as the `parse` parameter below. -/
structure GoURL where
  raw : String
deriving DecidableEq

/-- The gateway state built by `NewGateway`: the configuration plus one
reverse proxy per backend (modelled by each proxy's base URL). -/
structure Gateway where
  config : Config
  authProxy : GoURL
  blogProxy : GoURL
  userProxy : GoURL
  aspProxy : GoURL
deriving DecidableEq

/-- Model of `handler.NewGateway`: parse the four base addresses in
order, returning the first wrapped parse error, otherwise the gateway. -/
def NewGateway (parse : String → Except String GoURL) (config : Config) :
    Except String Gateway :=
  match parse config.AuthServiceURL with
  | .error e => .error ("invalid auth service URL: " ++ e)
  | .ok authURL =>
    match parse config.BlogServiceURL with
    | .error e => .error ("invalid blog service URL: " ++ e)
    | .ok blogURL =>
      match parse config.UserServiceURL with
      | .error e => .error ("invalid user service URL: " ++ e)
      | .ok userURL =>
        match parse config.AspServiceURL with
        | .error e => .error ("invalid asp service URL: " ++ e)
        | .ok aspURL =>
          .ok { config := config, authProxy := authURL, blogProxy := blogURL,
                userProxy := userURL, aspProxy := aspURL }

/-- How the process start ends: `log.Fatal` with a message, or a running
gateway. -/
inductive StartOutcome where
  | fatal (msg : String)
  | started (g : Gateway)
deriving DecidableEq

/-- Model of the startup path of `main`: read the four required
addresses from the environment, exit fatally if any is empty
(Go's `os.Getenv` yields `""` for an unset variable), then build the
gateway and exit fatally if construction fails. -/
def mainStart (parse : String → Except String GoURL) (env : String → String) :
    StartOutcome :=
  if env "AUTH_SERVICE_URL" = "" ∨ env "BLOG_SERVICE_URL" = "" ∨
      env "USER_SERVICE_URL" = "" ∨ env "ASP_SERVICE_URL" = "" then
    .fatal "Missing required environment variables"
  else
    match NewGateway parse
        { AuthServiceURL := env "AUTH_SERVICE_URL",
          BlogServiceURL := env "BLOG_SERVICE_URL",
          UserServiceURL := env "USER_SERVICE_URL",
          AspServiceURL := env "ASP_SERVICE_URL" } with
    | .error e => .fatal ("Failed to initialize gateway:" ++ e)
    | .ok g => .started g

/-!
Helper lemmas shared by the claim theorems.
-/

/-- Two patterns of equal length that differ cannot both match the same
path. -/
lemma goHasPre_disjoint {s a b : String} (hlen : a.data.length = b.data.length)
    (hne : a.data ≠ b.data) (ha : goHasPre s a = true) : goHasPre s b = false := by
  cases hb : goHasPre s b with
  | false => rfl
  | true =>
    have hpa : a.data <+: s.data := of_decide_eq_true ha
    have hpb : b.data <+: s.data := of_decide_eq_true hb
    have hab : a.data <+: b.data :=
      List.prefix_of_prefix_length_le hpa hpb (le_of_eq hlen)
    exact absurd (List.IsPrefix.eq_of_length hab hlen) hne

/-- A header that splits into two fields is not the empty string. -/
lemma goSplitSpace_ne_pair {s tok : String}
    (h : goSplitSpace s = ["Bearer", tok]) : s ≠ "" := by
  intro he
  rw [he] at h
  have h0 : goSplitSpace "" = [""] := rfl
  rw [h0] at h
  injection h with h1 h2
  exact absurd h1 (by decide)

/-- Unfolding of the middleware on a gated request with a well-formed
bearer header whose token fails verification. -/
lemma authMiddleware_verify_error
    (verify : String → Except String (String × String × String))
    (r : Request) (tok e : String)
    (hb : goHasPre r.path "/api/auth/" = false)
    (hparts : goSplitSpace (headerGet "Authorization" r.headers) = ["Bearer", tok])
    (hv : verify tok = Except.error e) :
    AuthMiddleware verify r =
      { outcome := MwOutcome.rejected 401 "invalid JWT",
        verifierCalled := some tok,
        logs := ["JWT validation failed: " ++ e] } := by
  have hA : headerGet "Authorization" r.headers ≠ "" := goSplitSpace_ne_pair hparts
  simp [AuthMiddleware, hb, hA, hparts, hv]

/-- Unfolding of the middleware on a gated request with a well-formed
bearer header whose token verifies successfully. -/
lemma authMiddleware_verify_ok
    (verify : String → Except String (String × String × String))
    (r : Request) (tok u ro un : String)
    (hb : goHasPre r.path "/api/auth/" = false)
    (hparts : goSplitSpace (headerGet "Authorization" r.headers) = ["Bearer", tok])
    (hv : verify tok = Except.ok (u, ro, un)) :
    AuthMiddleware verify r =
      { outcome := MwOutcome.forwarded
          { path := r.path,
            headers := headerSet "X-Username" un
              (headerSet "X-User-Role" ro (headerSet "X-User-ID" u r.headers)) },
        verifierCalled := some tok,
        logs := [] } := by
  have hA : headerGet "Authorization" r.headers ≠ "" := goSplitSpace_ne_pair hparts
  simp [AuthMiddleware, hb, hA, hparts, hv]

/-- The three identity headers read back the values just written,
whatever the caller supplied underneath. -/
lemma headerGet_identity_triple (u ro un : String) (hs : Headers) :
    headerGet "X-User-ID"
        (headerSet "X-Username" un
          (headerSet "X-User-Role" ro (headerSet "X-User-ID" u hs))) = u ∧
    headerGet "X-User-Role"
        (headerSet "X-Username" un
          (headerSet "X-User-Role" ro (headerSet "X-User-ID" u hs))) = ro ∧
    headerGet "X-Username"
        (headerSet "X-Username" un
          (headerSet "X-User-Role" ro (headerSet "X-User-ID" u hs))) = un := by
  refine ⟨?_, ?_, ?_⟩ <;> simp [headerGet, headerSet, List.filter_cons, List.find?]

/-!
Claim theorems.
-/

/-- C1: for every inbound request whose path falls under the auth bypass
path pattern `/api/auth/`, the Auth Gate passes the request through
without requiring a token and never invokes the Identity Verifier, even
when the Authorization header is missing or malformed. -/
theorem authGate_bypass_no_verifier
    (verify : String → Except String (String × String × String))
    (r : Request) (h : goHasPre r.path "/api/auth/" = true) :
    (AuthMiddleware verify r).verifierCalled = none ∧
    (AuthMiddleware verify r).outcome = MwOutcome.forwarded r := by
  simp [AuthMiddleware, h]

/-- Witness for C1: a bypass-path request with a malformed Authorization
header is forwarded untouched and the verifier is never called. -/
theorem authGate_bypass_no_verifier_witness :
    (AuthMiddleware (fun _ => Except.error "boom")
        { path := "/api/auth/jwt", headers := [("Authorization", "garbage")] }).verifierCalled
        = none ∧
    (AuthMiddleware (fun _ => Except.error "boom")
        { path := "/api/auth/jwt", headers := [("Authorization", "garbage")] }).outcome
        = MwOutcome.forwarded
            { path := "/api/auth/jwt", headers := [("Authorization", "garbage")] } :=
  authGate_bypass_no_verifier (fun _ => Except.error "boom")
    { path := "/api/auth/jwt", headers := [("Authorization", "garbage")] } (by decide)

/-- C2: for every request outside the bypass path pattern, an
Authorization header that is not exactly two space-separated fields with
the first literally `Bearer` — missing header, wrong scheme, missing
token, extra segments — yields a 401 rejection and the verifier is never
invoked. -/
theorem authGate_malformed_header_rejected
    (verify : String → Except String (String × String × String))
    (r : Request)
    (hb : goHasPre r.path "/api/auth/" = false)
    (hdev : headerGet "Authorization" r.headers = "" ∨
      (goSplitSpace (headerGet "Authorization" r.headers)).length ≠ 2 ∨
      (goSplitSpace (headerGet "Authorization" r.headers)).getD 0 "" ≠ "Bearer") :
    (∃ body, (AuthMiddleware verify r).outcome = MwOutcome.rejected 401 body) ∧
    (AuthMiddleware verify r).verifierCalled = none := by
  by_cases hA : headerGet "Authorization" r.headers = ""
  · refine ⟨⟨"missing Authorization header", ?_⟩, ?_⟩ <;> simp [AuthMiddleware, hb, hA]
  · have hcond : (goSplitSpace (headerGet "Authorization" r.headers)).length ≠ 2 ∨
        (goSplitSpace (headerGet "Authorization" r.headers)).getD 0 "" ≠ "Bearer" := by
      rcases hdev with h | h | h
      · exact absurd h hA
      · exact Or.inl h
      · exact Or.inr h
    have hred : AuthMiddleware verify r =
        { outcome := MwOutcome.rejected 401 "invalid Authorization format",
          verifierCalled := none, logs := [] } := by
      simp only [AuthMiddleware, hb, Bool.false_eq_true, if_false]
      rw [if_neg hA, if_pos hcond]
    rw [hred]
    exact ⟨⟨"invalid Authorization format", rfl⟩, rfl⟩

/-- Witness for C2: a gated request whose Authorization header uses the
wrong scheme is rejected with 401 and no verifier call is made. -/
theorem authGate_malformed_header_rejected_witness :
    (∃ body, (AuthMiddleware (fun _ => Except.ok ("u", "r", "n"))
        { path := "/api/blog/posts", headers := [("Authorization", "Basic abc")] }).outcome
        = MwOutcome.rejected 401 body) ∧
    (AuthMiddleware (fun _ => Except.ok ("u", "r", "n"))
        { path := "/api/blog/posts", headers := [("Authorization", "Basic abc")] }).verifierCalled
        = none :=
  authGate_malformed_header_rejected (fun _ => Except.ok ("u", "r", "n"))
    { path := "/api/blog/posts", headers := [("Authorization", "Basic abc")] }
    (by decide) (Or.inr (Or.inr (by decide)))

/-- C3: for every gated request whose token verifies with identity
`(userID, role, username)`, the forwarded request carries the three
identity headers set to exactly those values, whatever identity headers
the caller supplied. -/
theorem authGate_success_sets_identity_headers
    (verify : String → Except String (String × String × String))
    (r : Request) (tok u ro un : String)
    (hb : goHasPre r.path "/api/auth/" = false)
    (hparts : goSplitSpace (headerGet "Authorization" r.headers) = ["Bearer", tok])
    (hv : verify tok = Except.ok (u, ro, un)) :
    ∃ fw : Request, (AuthMiddleware verify r).outcome = MwOutcome.forwarded fw ∧
      fw.path = r.path ∧
      headerGet "X-User-ID" fw.headers = u ∧
      headerGet "X-User-Role" fw.headers = ro ∧
      headerGet "X-Username" fw.headers = un := by
  rw [authMiddleware_verify_ok verify r tok u ro un hb hparts hv]
  obtain ⟨h1, h2, h3⟩ := headerGet_identity_triple u ro un r.headers
  exact ⟨_, rfl, rfl, h1, h2, h3⟩

/-- Witness for C3: the spec's example — identity
`(u1, admin, alice)` — overwrites a caller-supplied `X-User-ID`. -/
theorem authGate_success_sets_identity_headers_witness :
    ∃ fw : Request,
      (AuthMiddleware (fun t => if t = "tok1" then Except.ok ("u1", "admin", "alice")
          else Except.error "bad token")
        { path := "/api/user/profile",
          headers := [("Authorization", "Bearer tok1"), ("X-User-ID", "evil")] }).outcome
        = MwOutcome.forwarded fw ∧
      fw.path = "/api/user/profile" ∧
      headerGet "X-User-ID" fw.headers = "u1" ∧
      headerGet "X-User-Role" fw.headers = "admin" ∧
      headerGet "X-Username" fw.headers = "alice" :=
  authGate_success_sets_identity_headers
    (fun t => if t = "tok1" then Except.ok ("u1", "admin", "alice")
      else Except.error "bad token")
    { path := "/api/user/profile",
      headers := [("Authorization", "Bearer tok1"), ("X-User-ID", "evil")] }
    "tok1" "u1" "admin" "alice" (by decide) (by decide) rfl

/-- C9: a request at exactly `/api/auth` (no trailing slash) does not
bypass the Auth Gate — with no token it is rejected — and it is routed
to the catch-all backend, not the auth backend: the bypass check matches
only paths continuing after `/api/auth/`, and so does the auth route. -/
theorem exact_auth_path_not_bypassed
    (verify : String → Except String (String × String × String)) :
    goHasPre "/api/auth" "/api/auth/" = false ∧
    (AuthMiddleware verify { path := "/api/auth", headers := [] }).outcome
      = MwOutcome.rejected 401 "missing Authorization header" ∧
    matchRoute "/api/auth" = some Target.asp :=
  ⟨by decide, rfl, by decide⟩

/-- Witness for C9: the statement applied to a concrete verifier. -/
theorem exact_auth_path_not_bypassed_witness :
    goHasPre "/api/auth" "/api/auth/" = false ∧
    (AuthMiddleware (fun _ => Except.error "unreached")
        { path := "/api/auth", headers := [] }).outcome
      = MwOutcome.rejected 401 "missing Authorization header" ∧
    matchRoute "/api/auth" = some Target.asp :=
  exact_auth_path_not_bypassed (fun _ => Except.error "unreached")

/-- C10: for every request under the bypass path pattern, the Auth Gate
forwards the request object itself, headers included — caller-supplied
identity headers reach the auth backend exactly as sent, because the
overwrite step runs only on gated routes after successful verification. -/
theorem authGate_bypass_preserves_headers
    (verify : String → Except String (String × String × String))
    (r : Request) (h : goHasPre r.path "/api/auth/" = true) :
    (AuthMiddleware verify r).outcome = MwOutcome.forwarded r := by
  simp [AuthMiddleware, h]

/-- Witness for C10: a bypass request carrying caller-supplied identity
headers is forwarded with those headers intact. -/
theorem authGate_bypass_preserves_headers_witness :
    (AuthMiddleware (fun _ => Except.error "unused")
        { path := "/api/auth/login",
          headers := [("X-User-ID", "spoofed"), ("X-User-Role", "admin")] }).outcome
      = MwOutcome.forwarded
          { path := "/api/auth/login",
            headers := [("X-User-ID", "spoofed"), ("X-User-Role", "admin")] } :=
  authGate_bypass_preserves_headers (fun _ => Except.error "unused")
    { path := "/api/auth/login",
      headers := [("X-User-ID", "spoofed"), ("X-User-Role", "admin")] } (by decide)

/-- C4: an auth-backend success response whose payload has an empty
subject identifier or an empty role makes `validateJWT` return the
incomplete-identity error, and the Auth Gate then rejects the request
with 401 instead of half-authenticating it. -/
theorem incomplete_identity_rejected
    (backend : String → AuthBackendResult) (r : Request)
    (tok : String) (ar : AuthValidateResponse)
    (hresp : backend tok = AuthBackendResult.response 200 (some ar))
    (hincomplete : ar.userID = "" ∨ ar.role = "")
    (hb : goHasPre r.path "/api/auth/" = false)
    (hparts : goSplitSpace (headerGet "Authorization" r.headers) = ["Bearer", tok]) :
    validateJWT (AuthBackendResult.response 200 (some ar))
      = Except.error "invalid AuthService response: missing userID or role" ∧
    (gateHandle backend r).outcome = MwOutcome.rejected 401 "invalid JWT" := by
  have hval : validateJWT (AuthBackendResult.response 200 (some ar))
      = Except.error "invalid AuthService response: missing userID or role" := by
    simp only [validateJWT]
    rw [if_neg (fun h => h rfl), if_pos hincomplete]
  refine ⟨hval, ?_⟩
  have hv : validateJWT (backend tok)
      = Except.error "invalid AuthService response: missing userID or role" := by
    rw [hresp, hval]
  unfold gateHandle
  rw [authMiddleware_verify_error _ r tok _ hb hparts hv]

/-- Witness for C4: the spec's example payload with an empty `userID`
and role `admin` on a 200 response is rejected as unauthorized. -/
theorem incomplete_identity_rejected_witness :
    validateJWT (AuthBackendResult.response 200
        (some { userID := "", role := "admin", username := "alice", error := "" }))
      = Except.error "invalid AuthService response: missing userID or role" ∧
    (gateHandle
        (fun _ => AuthBackendResult.response 200
          (some { userID := "", role := "admin", username := "alice", error := "" }))
        { path := "/api/blog/posts", headers := [("Authorization", "Bearer t0")] }).outcome
      = MwOutcome.rejected 401 "invalid JWT" :=
  incomplete_identity_rejected
    (fun _ => AuthBackendResult.response 200
      (some { userID := "", role := "admin", username := "alice", error := "" }))
    { path := "/api/blog/posts", headers := [("Authorization", "Bearer t0")] }
    "t0" { userID := "", role := "admin", username := "alice", error := "" }
    rfl (Or.inl rfl) (by decide) (by decide)

/-- C5: the Router selects the most specific matching rule before the
catch-all: paths continuing after `/api/auth/`, `/api/blog/`,
`/api/user/` select the corresponding backend, any other path matching
the catch-all pattern `/api/` selects the catch-all backend, and the
catch-all rule sits last in the ordered route table. -/
theorem router_precedence :
    (∀ p : String, goHasPre p "/api/auth/" = true → matchRoute p = some Target.auth) ∧
    (∀ p : String, goHasPre p "/api/blog/" = true → matchRoute p = some Target.blog) ∧
    (∀ p : String, goHasPre p "/api/user/" = true → matchRoute p = some Target.user) ∧
    (∀ p : String, goHasPre p "/api/" = true →
      goHasPre p "/api/auth/" = false → goHasPre p "/api/blog/" = false →
      goHasPre p "/api/user/" = false → matchRoute p = some Target.asp) ∧
    routes.getLast? = some ("/api/", Target.asp) := by
  refine ⟨?_, ?_, ?_, ?_, by decide⟩
  · intro p h
    simp [matchRoute, routes, List.find?, h]
  · intro p h
    have ha : goHasPre p "/api/auth/" = false :=
      goHasPre_disjoint (by decide) (by decide) h
    simp [matchRoute, routes, List.find?, h, ha]
  · intro p h
    have ha : goHasPre p "/api/auth/" = false :=
      goHasPre_disjoint (by decide) (by decide) h
    have hbl : goHasPre p "/api/blog/" = false :=
      goHasPre_disjoint (by decide) (by decide) h
    simp [matchRoute, routes, List.find?, h, ha, hbl]
  · intro p h ha hbl hu
    simp [matchRoute, routes, List.find?, h, ha, hbl, hu]

/-- Witness for C5: the spec's examples — `/api/blog/posts/5` resolves
to the blog backend, `/api/anything-else` to the catch-all. -/
theorem router_precedence_witness :
    matchRoute "/api/blog/posts/5" = some Target.blog ∧
    matchRoute "/api/anything-else" = some Target.asp :=
  ⟨router_precedence.2.1 "/api/blog/posts/5" (by decide),
   router_precedence.2.2.2.1 "/api/anything-else"
     (by decide) (by decide) (by decide) (by decide)⟩

/-- C6: whenever the Identity Verifier reports any error on a gated
request, the HTTP outcome is the single 401 rejection with the constant
body `invalid JWT`, while the distinct failure reason goes to the
internal log. -/
theorem verifier_error_single_unauthorized
    (backend : String → AuthBackendResult) (r : Request) (tok e : String)
    (hb : goHasPre r.path "/api/auth/" = false)
    (hparts : goSplitSpace (headerGet "Authorization" r.headers) = ["Bearer", tok])
    (hv : validateJWT (backend tok) = Except.error e) :
    (gateHandle backend r).outcome = MwOutcome.rejected 401 "invalid JWT" ∧
    (gateHandle backend r).logs = ["JWT validation failed: " ++ e] := by
  unfold gateHandle
  rw [authMiddleware_verify_error _ r tok e hb hparts hv]
  exact ⟨rfl, rfl⟩

/-- Witness for C6: an unreachable auth backend yields 401 with the
upstream-unavailable reason only in the log. -/
theorem verifier_error_single_unauthorized_witness :
    (gateHandle (fun _ => AuthBackendResult.netErr "connection refused")
        { path := "/api/user/1", headers := [("Authorization", "Bearer t1")] }).outcome
      = MwOutcome.rejected 401 "invalid JWT" ∧
    (gateHandle (fun _ => AuthBackendResult.netErr "connection refused")
        { path := "/api/user/1", headers := [("Authorization", "Bearer t1")] }).logs
      = ["JWT validation failed: "
          ++ "failed to contact AuthService: connection refused"] :=
  verifier_error_single_unauthorized
    (fun _ => AuthBackendResult.netErr "connection refused")
    { path := "/api/user/1", headers := [("Authorization", "Bearer t1")] }
    "t1" "failed to contact AuthService: connection refused"
    (by decide) (by decide) rfl

/-- C7: on a non-success backend status, `validateJWT` surfaces the
parsed error payload's message when one is present and non-empty, and
otherwise surfaces the raw status code. -/
theorem validateJWT_nonsuccess_status (status : Nat) (hs : status ≠ 200) :
    (∀ ar : AuthValidateResponse, ar.error ≠ "" →
      validateJWT (AuthBackendResult.response status (some ar))
        = Except.error ("AuthService error: " ++ ar.error)) ∧
    (∀ ar : AuthValidateResponse, ar.error = "" →
      validateJWT (AuthBackendResult.response status (some ar))
        = Except.error ("AuthService returned status: " ++ toString status)) ∧
    validateJWT (AuthBackendResult.response status none)
      = Except.error ("AuthService returned status: " ++ toString status) := by
  refine ⟨?_, ?_, ?_⟩
  · intro ar h
    simp [validateJWT, hs, h]
  · intro ar h
    simp [validateJWT, hs, h]
  · simp [validateJWT, hs]

/-- Witness for C7: a 500 with a structured error surfaces the message;
a 503 with an undecodable body surfaces the status. -/
theorem validateJWT_nonsuccess_status_witness :
    validateJWT (AuthBackendResult.response 500
        (some { userID := "", role := "", username := "", error := "token expired" }))
      = Except.error ("AuthService error: " ++ "token expired") ∧
    validateJWT (AuthBackendResult.response 503 none)
      = Except.error ("AuthService returned status: " ++ toString 503) :=
  ⟨(validateJWT_nonsuccess_status 500 (by decide)).1
      { userID := "", role := "", username := "", error := "token expired" } (by decide),
   (validateJWT_nonsuccess_status 503 (by decide)).2.2⟩

/-- Any failing parse among the four base addresses makes `NewGateway`
return an error. -/
lemma NewGateway_error_of_any
    (parse : String → Except String GoURL) (config : Config)
    (h : (∃ e, parse config.AuthServiceURL = Except.error e) ∨
      (∃ e, parse config.BlogServiceURL = Except.error e) ∨
      (∃ e, parse config.UserServiceURL = Except.error e) ∨
      (∃ e, parse config.AspServiceURL = Except.error e)) :
    ∃ e, NewGateway parse config = Except.error e := by
  unfold NewGateway
  cases hA : parse config.AuthServiceURL with
  | error e => exact ⟨_, rfl⟩
  | ok authURL =>
    cases hB : parse config.BlogServiceURL with
    | error e => exact ⟨_, rfl⟩
    | ok blogURL =>
      cases hC : parse config.UserServiceURL with
      | error e => exact ⟨_, rfl⟩
      | ok userURL =>
        cases hD : parse config.AspServiceURL with
        | error e => exact ⟨_, rfl⟩
        | ok aspURL =>
          exfalso
          rcases h with ⟨e, he⟩ | ⟨e, he⟩ | ⟨e, he⟩ | ⟨e, he⟩
          · rw [hA] at he
            exact Except.noConfusion he
          · rw [hB] at he
            exact Except.noConfusion he
          · rw [hC] at he
            exact Except.noConfusion he
          · rw [hD] at he
            exact Except.noConfusion he

/-- C8: if any of the four required base addresses is absent (empty in
the environment) or fails to parse, startup ends in `log.Fatal` rather
than a running gateway. -/
theorem startup_failfast_on_bad_config
    (parse : String → Except String GoURL) (env : String → String)
    (hbad : env "AUTH_SERVICE_URL" = "" ∨ env "BLOG_SERVICE_URL" = "" ∨
      env "USER_SERVICE_URL" = "" ∨ env "ASP_SERVICE_URL" = "" ∨
      (∃ e, parse (env "AUTH_SERVICE_URL") = Except.error e) ∨
      (∃ e, parse (env "BLOG_SERVICE_URL") = Except.error e) ∨
      (∃ e, parse (env "USER_SERVICE_URL") = Except.error e) ∨
      (∃ e, parse (env "ASP_SERVICE_URL") = Except.error e)) :
    ∃ msg, mainStart parse env = StartOutcome.fatal msg := by
  by_cases hempty : env "AUTH_SERVICE_URL" = "" ∨ env "BLOG_SERVICE_URL" = "" ∨
      env "USER_SERVICE_URL" = "" ∨ env "ASP_SERVICE_URL" = ""
  · refine ⟨"Missing required environment variables", ?_⟩
    unfold mainStart
    rw [if_pos hempty]
  · have hparse : (∃ e, parse (env "AUTH_SERVICE_URL") = Except.error e) ∨
        (∃ e, parse (env "BLOG_SERVICE_URL") = Except.error e) ∨
        (∃ e, parse (env "USER_SERVICE_URL") = Except.error e) ∨
        (∃ e, parse (env "ASP_SERVICE_URL") = Except.error e) := by
      tauto
    obtain ⟨e, hng⟩ := NewGateway_error_of_any parse
      { AuthServiceURL := env "AUTH_SERVICE_URL",
        BlogServiceURL := env "BLOG_SERVICE_URL",
        UserServiceURL := env "USER_SERVICE_URL",
        AspServiceURL := env "ASP_SERVICE_URL" } hparse
    refine ⟨"Failed to initialize gateway:" ++ e, ?_⟩
    unfold mainStart
    rw [if_neg hempty, hng]

/-- Witness for C8: with every required variable unset the process
refuses to start. -/
theorem startup_failfast_on_bad_config_witness :
    ∃ msg, mainStart (fun s => Except.ok { raw := s }) (fun _ => "")
      = StartOutcome.fatal msg :=
  startup_failfast_on_bad_config (fun s => Except.ok { raw := s }) (fun _ => "")
    (Or.inl rfl)

end GatewaySvc
